import Mathlib

/-!
Shallow embedding of `AsanaPython.py`, a Flask webhook adapter that forwards
Jira issue events to the Asana task-creation API.

Inbound payloads, parsed JSON bodies and ADF (Atlassian Document Format)
rich-text documents are modelled by the `JSON` value type below.  Python
behaviours that the source relies on are made explicit:
  * `dict.get(k, default)` raises `AttributeError` on a non-dict receiver,
    modelled by `dictGet : JSON → String → JSON → Except String JSON`;
  * `str(x)` / f-string interpolation is modelled by `pyStr`;
  * truthiness (`if description:`) is modelled by `pyTruthy`;
  * `"sep".join(parts)` raises `TypeError` when a part is not a string,
    modelled by `pyJoin`.
The outbound `requests.post` call is modelled by an `ApiOutcome` input: either
a transport-level `requests.RequestException` or a response carrying a status
code, raw text, and (when the body parses) a parsed `JSON` body.
-/

inductive JSON where
  | null : JSON
  | bool : Bool → JSON
  | num : Int → JSON
  | str : String → JSON
  | arr : List JSON → JSON
  | obj : List (String × JSON) → JSON

mutual

/-- Python's `repr` rendering of a JSON-shaped value (used inside containers). -/
def pyRepr : JSON → String
  | JSON.null => "None"
  | JSON.bool b => if b then "True" else "False"
  | JSON.num n => toString n
  | JSON.str s => "\x27" ++ s ++ "\x27"
  | JSON.arr xs => "[" ++ pyReprElems xs ++ "]"
  | JSON.obj fs => "\x7b" ++ pyReprFields fs ++ "\x7d"

/-- `repr` of the elements of a Python list, comma separated. -/
def pyReprElems : List JSON → String
  | [] => ""
  | [x] => pyRepr x
  | x :: xs => pyRepr x ++ ", " ++ pyReprElems xs

/-- `repr` of the entries of a Python dict, comma separated. -/
def pyReprFields : List (String × JSON) → String
  | [] => ""
  | [(k, v)] => "\x27" ++ k ++ "\x27: " ++ pyRepr v
  | (k, v) :: fs => "\x27" ++ k ++ "\x27: " ++ pyRepr v ++ ", " ++ pyReprFields fs

end

/-- Python's `str(x)` on a JSON-shaped value: a string is itself, everything
else renders as its `repr`. -/
def pyStr : JSON → String
  | JSON.str s => s
  | j => pyRepr j

/-- Python truthiness of a JSON-shaped value. -/
def pyTruthy : JSON → Bool
  | JSON.null => false
  | JSON.bool b => b
  | JSON.num n => n != 0
  | JSON.str s => !s.isEmpty
  | JSON.arr xs => !xs.isEmpty
  | JSON.obj fs => !fs.isEmpty

/-- `x.get(k, default)`: succeeds on a dict (first binding of `k`, else the
default), raises `AttributeError` on any other receiver. -/
def dictGet (j : JSON) (k : String) (dflt : JSON) : Except String JSON :=
  match j with
  | JSON.obj fs => Except.ok ((fs.lookup k).getD dflt)
  | _ => Except.error "AttributeError: object has no attribute get"

/-- `x == s` where `s` is a Python string literal and `x` an arbitrary value
(`None` compares unequal, as in Python). -/
def isStr (j : Option JSON) (s : String) : Bool :=
  match j with
  | some (JSON.str t) => t == s
  | _ => false

/-- Whether the value is a Python dict (`isinstance(x, dict)`). -/
def isDict : JSON → Bool
  | JSON.obj _ => true
  | _ => false

/-- `"".join(text_parts)` over the collected parts: concatenation if every
part is a string, `TypeError` otherwise. -/
def pyJoin : List JSON → Except String String
  | [] => Except.ok ""
  | JSON.str t :: rest => (pyJoin rest).map (fun s => t ++ s)
  | _ => Except.error "TypeError: sequence item is not a string"

/-- The loop body of `extract_paragraph_text` (lines 21-25): walk the items of
`paragraph["content"]`, keeping `item["text"]` for every dict item with
`item.get("type") == "text" and "text" in item`; a non-dict item raises
`AttributeError` at `item.get`. -/
def paraWalk : List JSON → Except String (List JSON)
  | [] => Except.ok []
  | item :: rest =>
    match item with
    | JSON.obj ifs =>
      match paraWalk rest with
      | Except.error e => Except.error e
      | Except.ok ts =>
        if isStr (ifs.lookup "type") "text" && (ifs.lookup "text").isSome then
          Except.ok (((ifs.lookup "text").getD JSON.null) :: ts)
        else Except.ok ts
    | _ => Except.error "AttributeError: object has no attribute get"

/-- `extract_paragraph_text(paragraph)` (lines 18-28): inside the `try`,
concatenate the `text` of recognised inline text nodes of
`paragraph["content"]`; the bare `except` turns every raised exception into
`""`, and a missing `"content"` key also yields `""`.

Non-list `"content"` values: iterating a non-empty string or dict yields
strings, whose `.get` raises (caught, `""`); empty ones run the loop zero
times (`""`); non-iterables raise `TypeError` (caught, `""`) — all `""`.
A non-dict `paragraph` (unreachable from call sites, which have just tested
`paragraph.get("type")`) either raises at `"content" in paragraph` or at the
subscript (caught, `""`) or skips the branch (`""`) — all `""`. -/
def extract_paragraph_text (paragraph : JSON) : String :=
  match paragraph with
  | JSON.obj fs =>
    match fs.lookup "content" with
    | some (JSON.arr items) =>
      match paraWalk items with
      | Except.ok parts =>
        match pyJoin parts with
        | Except.ok s => s
        | Except.error _ => ""
      | Except.error _ => ""
    | some _ => ""
    | none => ""
  | _ => ""

/-- The loop body of `extract_text_from_adf` (lines 33-38): walk the items of
`adf_content["content"]`, and for each dict item whose `type` is
`"paragraph"`, append its `extract_paragraph_text` — but only `if
paragraph_text:` is truthy, i.e. non-empty; a non-dict item raises
`AttributeError` at `content_item.get`. -/
def adfWalk : List JSON → Except String (List String)
  | [] => Except.ok []
  | ci :: rest =>
    match ci with
    | JSON.obj cifs =>
      match adfWalk rest with
      | Except.error e => Except.error e
      | Except.ok ts =>
        if isStr (cifs.lookup "type") "paragraph" then
          let pt := extract_paragraph_text (JSON.obj cifs)
          if pt.isEmpty then Except.ok ts else Except.ok (pt :: ts)
        else Except.ok ts
    | _ => Except.error "AttributeError: object has no attribute get"

/-- `extract_text_from_adf(adf_content)` (lines 30-43): for a dict with a
`"content"` list, join the kept paragraph texts with `"\n"`; anything else
falls back to `str(adf_content)`, and so does any exception raised during the
walk (the `except` branch, line 43).

Non-list `"content"` values behave as in `extract_paragraph_text`: empty
string/dict iterate zero times (join of nothing, `""`), non-empty ones raise
at `content_item.get` (fallback), non-iterables raise `TypeError`
(fallback). -/
def extract_text_from_adf (adf_content : JSON) : String :=
  match adf_content with
  | JSON.obj fs =>
    match fs.lookup "content" with
    | some (JSON.arr items) =>
      match adfWalk items with
      | Except.ok parts => String.intercalate "\n" parts
      | Except.error _ => pyStr adf_content
    | some (JSON.str s) => if s.isEmpty then "" else pyStr adf_content
    | some (JSON.obj ofs) => if ofs.isEmpty then "" else pyStr adf_content
    | some _ => pyStr adf_content
    | none => pyStr adf_content
  | _ => pyStr adf_content

/-- Outcome of the single `requests.post` to the Asana API (line 60):
either a `requests.RequestException` (connection error, timeout, ...) or a
response with a status code, raw text (`response.text`) and, when the body is
parseable JSON, its parse (`response.json()` raises when `body = none`). -/
inductive ApiOutcome where
  | requestError : String → ApiOutcome
  | response : Nat → String → Option JSON → ApiOutcome

/-- The dict returned by `create_asana_task` / `create_asana_task_from_jira_webhook`:
`success` carries `message`, `task_id` (the raw value taken from the response,
not necessarily a string), `task_name` and `asana_url`; `failure` carries
`message`, `error_type` and, for API errors only, `status_code`. -/
inductive TaskResult where
  | success : String → JSON → String → String → TaskResult
  | failure : String → String → Option Nat → TaskResult

/-- `create_asana_task(task_name, task_notes)` (lines 45-96), with the
configured `ASANA_PROJECT_ID` and the outcome of the HTTP call as explicit
inputs.  On status 201 the body is parsed and
`task_data.get("data", {}).get("gid", "Unknown")` extracted — an unparseable
body or a non-dict value raises, landing in the generic `except Exception`
branch (`error_type "task_creation"`).  Any other status yields
`error_type "asana_api"` with the status code; a `requests.RequestException`
yields `error_type "network"`. -/
def create_asana_task (projectId task_name task_notes : String)
    (outcome : ApiOutcome) : TaskResult :=
  match outcome with
  | ApiOutcome.requestError e =>
    TaskResult.failure ("Network error while calling Asana API: " ++ e) "network" none
  | ApiOutcome.response status text body =>
    if status == 201 then
      match body with
      | none =>
        TaskResult.failure
          "Unexpected error creating Asana task: response body is not valid JSON" "task_creation" none
      | some task_data =>
        match dictGet task_data "data" (JSON.obj []) with
        | Except.error e =>
          TaskResult.failure ("Unexpected error creating Asana task: " ++ e) "task_creation" none
        | Except.ok d =>
          match dictGet d "gid" (JSON.str "Unknown") with
          | Except.error e =>
            TaskResult.failure ("Unexpected error creating Asana task: " ++ e) "task_creation" none
          | Except.ok task_gid =>
            TaskResult.success "Task created successfully in Asana" task_gid task_name
              ("https://app.asana.com/0/" ++ projectId ++ "/" ++ pyStr task_gid)
    else
      TaskResult.failure ("Asana API Error: " ++ toString status ++ " - " ++ text)
        "asana_api" (some status)

/-- Normalisation of the extracted `description` field (lines 108-111):
a dict is treated as an ADF document; anything else is `str(description)`
when truthy, `""` otherwise. -/
def normalize_description (description : JSON) : String :=
  match description with
  | JSON.obj fs => extract_text_from_adf (JSON.obj fs)
  | d => if pyTruthy d then pyStr d else ""

/-- The notes composition of lines 116-118: the fixed header
`"Jira Issue: {key}\nOriginal Summary: {summary}\n\n"` with the
`"Description:\n{text}"` section appended only when `description_text` is
truthy (non-empty). -/
def composeNotes (jira_key summary description_text : String) : String :=
  let notes := "Jira Issue: " ++ jira_key ++ "\nOriginal Summary: " ++ summary ++ "\n\n"
  if description_text.isEmpty then notes
  else notes ++ "Description:\n" ++ description_text

/-- The field-extraction and composition steps of
`create_asana_task_from_jira_webhook` (lines 102-118), inside the `try`:
each `.get` can raise `AttributeError` when its receiver is not a dict;
f-strings interpolate via `str` (`pyStr`). -/
def extractTaskFields (data : JSON) : Except String (String × String) := do
  let issue ← dictGet data "issue" (JSON.obj [])
  let jira_key ← dictGet issue "key" (JSON.str "UNKNOWN")
  let fields ← dictGet issue "fields" (JSON.obj [])
  let summary ← dictGet fields "summary" (JSON.str "No Title")
  let description ← dictGet fields "description" (JSON.str "")
  let description_text := normalize_description description
  let asana_task_name := "[" ++ pyStr jira_key ++ "] " ++ pyStr summary
  let asana_task_notes := composeNotes (pyStr jira_key) (pyStr summary) description_text
  pure (asana_task_name, asana_task_notes)

/-- `create_asana_task_from_jira_webhook(data)` (lines 98-129): extract and
compose the task fields, delegate to `create_asana_task`; any exception in
the extraction steps is caught and converted to an `error_type "processing"`
failure (lines 125-129). -/
def create_asana_task_from_jira_webhook (projectId : String) (data : JSON)
    (outcome : ApiOutcome) : TaskResult :=
  match extractTaskFields data with
  | Except.ok (asana_task_name, asana_task_notes) =>
    create_asana_task projectId asana_task_name asana_task_notes outcome
  | Except.error e =>
    TaskResult.failure ("Error processing webhook data: " ++ e) "processing" none

/-- `jsonify(result)`: the JSON serialisation of the result dicts built by the
source (the `status` key distinguishes the variants; `status_code` is present
only on API errors). -/
def taskResultToJson : TaskResult → JSON
  | TaskResult.success message task_id task_name asana_url =>
    JSON.obj [("status", JSON.str "success"), ("message", JSON.str message),
      ("task_id", task_id), ("task_name", JSON.str task_name),
      ("asana_url", JSON.str asana_url)]
  | TaskResult.failure message error_type none =>
    JSON.obj [("status", JSON.str "error"), ("message", JSON.str message),
      ("error_type", JSON.str error_type)]
  | TaskResult.failure message error_type (some sc) =>
    JSON.obj [("status", JSON.str "error"), ("message", JSON.str message),
      ("error_type", JSON.str error_type), ("status_code", JSON.num sc)]

/-- An inbound `POST /jira-webhook` request as the handler observes it:
either its body is not JSON (`request.is_json` false) or it carries a parsed
JSON value (`request.get_json()`). -/
inductive WebhookRequest where
  | notJson : WebhookRequest
  | json : JSON → WebhookRequest

/-- `jira_webhook()` (lines 131-138): HTTP status and JSON body of the
response.  Non-JSON bodies get status 400; otherwise the serialised
`TaskResult` is returned with Flask's default status 200. -/
def jira_webhook (projectId : String) (req : WebhookRequest)
    (outcome : ApiOutcome) : Nat × JSON :=
  match req with
  | WebhookRequest.notJson =>
    (400, JSON.obj [("status", JSON.str "error"), ("message", JSON.str "Expected JSON data")])
  | WebhookRequest.json data =>
    (200, taskResultToJson (create_asana_task_from_jira_webhook projectId data outcome))

/-- Whether a content item is a dict block node whose `type` is `"paragraph"`
(the nodes kept by the loop of lines 34-38). -/
def isParagraphNode (ci : JSON) : Bool :=
  match ci with
  | JSON.obj cifs => isStr (cifs.lookup "type") "paragraph"
  | _ => false

/-- Number of paragraph block nodes of a rich-text document (the N of the
block-structure claims). -/
def paragraphNodeCount (adf : JSON) : Nat :=
  match adf with
  | JSON.obj fs =>
    match fs.lookup "content" with
    | some (JSON.arr items) => (items.filter isParagraphNode).length
    | _ => 0
  | _ => 0

/-- A paragraph node with one inline text node `"Hello"`. -/
def c1p1 : JSON := JSON.obj [("type", JSON.str "paragraph"),
  ("content", JSON.arr [JSON.obj [("type", JSON.str "text"), ("text", JSON.str "Hello")]])]

/-- A paragraph node with zero inline text nodes (extracts to `""`). -/
def c1p2 : JSON := JSON.obj [("type", JSON.str "paragraph"), ("content", JSON.arr [])]

/-- A well-formed two-paragraph document whose second paragraph extracts to
the empty string. -/
def c1doc : JSON := JSON.obj [("content", JSON.arr [c1p1, c1p2])]

/-- The inbound payload of spec Scenario A: issue `ABC-1`, summary `Fix bug`,
description absent. -/
def c2data : JSON := JSON.obj [("issue", JSON.obj [("key", JSON.str "ABC-1"),
  ("fields", JSON.obj [("summary", JSON.str "Fix bug")])])]

/-- Under the `ADFWellFormed`-style hypotheses (a dict document whose
`"content"` is a list of dict nodes), the walk of lines 34-38 succeeds and
keeps, in order, the extracted text of each paragraph node — dropping the
paragraphs whose extracted text is empty (`if paragraph_text:`, line 37). -/
theorem adfWalk_eq_ok (items : List JSON) (h : ∀ ci ∈ items, isDict ci = true) :
    adfWalk items =
      Except.ok (((items.filter isParagraphNode).map extract_paragraph_text).filter
        (fun s => !s.isEmpty)) := by
  induction items with
  | nil => rfl
  | cons ci rest ih =>
    have hci := h ci (List.mem_cons_self ci rest)
    have hrest : ∀ x ∈ rest, isDict x = true := fun x hx => h x (List.mem_cons_of_mem ci hx)
    cases ci with
    | obj cifs =>
      simp only [adfWalk, ih hrest]
      by_cases hp : isStr (cifs.lookup "type") "paragraph"
      · by_cases he : (extract_paragraph_text (JSON.obj cifs)).isEmpty
        · simp [isParagraphNode, hp, he, List.filter_cons]
        · simp [isParagraphNode, hp, he, List.filter_cons]
      · simp [isParagraphNode, hp, List.filter_cons]
    | null => simp [isDict] at hci
    | bool b => simp [isDict] at hci
    | num n => simp [isDict] at hci
    | str s => simp [isDict] at hci
    | arr xs => simp [isDict] at hci

/-- Claim C1 counterexample: `c1doc` is a well-formed document with N = 2
paragraph block nodes (the second containing zero inline text nodes), yet
`extract_text_from_adf` returns `"Hello"`, which contains 0 newline
separators, not N - 1 = 1: the empty paragraph is skipped, not included as an
empty segment. -/
theorem C1_counterexample :
    paragraphNodeCount c1doc = 2 ∧ extract_text_from_adf c1doc = "Hello" ∧
      (extract_text_from_adf c1doc).toList.count (Char.ofNat 10) ≠
        paragraphNodeCount c1doc - 1 := by
  decide

/-- Claim C1 as amended: for every well-formed rich-text document (a dict
whose `"content"` is a list of dict nodes), the normalizer returns the
per-paragraph extracted texts joined with newline separators, with paragraphs
whose extracted text is empty skipped (not preserved as empty segments): the
result has K - 1 separators for the K paragraphs with non-empty text. -/
theorem C1_amended (fs : List (String × JSON)) (items : List JSON)
    (hc : fs.lookup "content" = some (JSON.arr items))
    (hd : ∀ ci ∈ items, isDict ci = true) :
    extract_text_from_adf (JSON.obj fs) =
      String.intercalate "\n"
        (((items.filter isParagraphNode).map extract_paragraph_text).filter
          (fun s => !s.isEmpty)) := by
  simp [extract_text_from_adf, hc, adfWalk_eq_ok items hd]

/-- Witness for C1_amended at the concrete two-paragraph document. -/
theorem C1_amended_witness :
    extract_text_from_adf c1doc =
      String.intercalate "\n"
        ((([c1p1, c1p2].filter isParagraphNode).map extract_paragraph_text).filter
          (fun s => !s.isEmpty)) :=
  C1_amended [("content", JSON.arr [c1p1, c1p2])] [c1p1, c1p2] rfl (by decide)

/-- Claim C2 counterexample: with issue key `ABC-1`, summary `Fix bug` and no
description, the notes handed to `create_asana_task` are
`"Jira Issue: ABC-1\nOriginal Summary: Fix bug\n\n"` — the first fixed line
is `"Jira Issue: {issueKey}"` (line 116), not `"Issue: {issueKey}"` as the
claim states. -/
theorem C2_counterexample :
    extractTaskFields c2data =
      Except.ok ("[ABC-1] Fix bug", "Jira Issue: ABC-1\nOriginal Summary: Fix bug\n\n") ∧
      "Jira Issue: ABC-1\nOriginal Summary: Fix bug\n\n" ≠
        "Issue: ABC-1\nOriginal Summary: Fix bug\n\n" :=
  ⟨rfl, by decide⟩

/-- Claim C2 as amended: the notes always begin with the two fixed lines
`"Jira Issue: {issueKey}"` and `"Original Summary: {summary}"` followed by a
blank line; with description absent, issue key `ABC-1` and summary `Fix bug`,
`create_asana_task` is called with notes exactly
`"Jira Issue: ABC-1\nOriginal Summary: Fix bug\n\n"`. -/
theorem C2_amended :
    (∀ k s d : String, ∃ rest, composeNotes k s d =
      "Jira Issue: " ++ k ++ "\nOriginal Summary: " ++ s ++ "\n\n" ++ rest) ∧
    extractTaskFields c2data =
      Except.ok ("[ABC-1] Fix bug", "Jira Issue: ABC-1\nOriginal Summary: Fix bug\n\n") := by
  constructor
  · intro k s d
    by_cases hd : d.isEmpty
    · exact ⟨"", by simp [composeNotes, hd, String.append_empty]⟩
    · refine ⟨"Description:\n" ++ d, ?_⟩
      simp only [composeNotes, hd, if_false, Bool.false_eq_true, String.append_assoc]
  · rfl

/-- Claim C3 counterexample: a status-500 response yields a failure whose
`error_type` is `"asana_api"` (line 85), not `"api"` as the claim states. -/
theorem C3_counterexample :
    create_asana_task "P" "N" "T" (ApiOutcome.response 500 "server error" none) =
      TaskResult.failure "Asana API Error: 500 - server error" "asana_api" (some 500) ∧
      "asana_api" ≠ "api" :=
  ⟨rfl, by decide⟩

/-- Claim C3 as amended: any HTTP status other than 201 yields a failure with
`error_type "asana_api"`, the numeric status code, and a message containing
the status and the raw response body; a transport-level failure yields a
failure with `error_type "network"`. -/
theorem C3_amended (pid nm notes text e : String) (status : Nat) (body : Option JSON)
    (h : status ≠ 201) :
    create_asana_task pid nm notes (ApiOutcome.response status text body) =
      TaskResult.failure ("Asana API Error: " ++ toString status ++ " - " ++ text)
        "asana_api" (some status) ∧
    create_asana_task pid nm notes (ApiOutcome.requestError e) =
      TaskResult.failure ("Network error while calling Asana API: " ++ e) "network" none := by
  refine ⟨?_, rfl⟩
  simp [create_asana_task, h]

/-- Witness for C3_amended at status 500. -/
theorem C3_amended_witness :
    create_asana_task "P" "N" "T" (ApiOutcome.response 500 "oops" none) =
      TaskResult.failure ("Asana API Error: " ++ toString 500 ++ " - " ++ "oops")
        "asana_api" (some 500) :=
  (C3_amended "P" "N" "T" "oops" "" 500 none (by decide)).1

/-- Claim C4: `create_asana_task_from_jira_webhook` is total over all inbound
payload values and API outcomes — it always returns exactly one `TaskResult`:
either field extraction and notes composition succeed and the result is that
of `create_asana_task`, or the raised exception is caught and converted into
a failure with `error_type "processing"`; nothing propagates. -/
theorem C4_total_processing (pid : String) (data : JSON) (outcome : ApiOutcome) :
    (∃ nm notes, extractTaskFields data = Except.ok (nm, notes) ∧
      create_asana_task_from_jira_webhook pid data outcome =
        create_asana_task pid nm notes outcome) ∨
    (∃ e, extractTaskFields data = Except.error e ∧
      create_asana_task_from_jira_webhook pid data outcome =
        TaskResult.failure ("Error processing webhook data: " ++ e) "processing" none) := by
  cases h : extractTaskFields data with
  | ok p =>
    obtain ⟨nm, notes⟩ := p
    exact Or.inl ⟨nm, notes, rfl, by simp [create_asana_task_from_jira_webhook, h]⟩
  | error e =>
    exact Or.inr ⟨e, rfl, by simp [create_asana_task_from_jira_webhook, h]⟩

/-- Claim C5: on HTTP status 201 with a parseable body whose `"data"` field
is a dict (or absent, defaulting to `{}`), `create_asana_task` returns a
success whose `task_id` is the `gid` value — `"Unknown"` when absent — and
whose `asana_url` is composed of the project id and that identifier, ending
in `"/"` followed by it. -/
theorem C5_created_success (pid nm notes text : String)
    (bfs dfs : List (String × JSON))
    (h : bfs.lookup "data" = some (JSON.obj dfs) ∨ (bfs.lookup "data" = none ∧ dfs = [])) :
    create_asana_task pid nm notes (ApiOutcome.response 201 text (some (JSON.obj bfs))) =
      TaskResult.success "Task created successfully in Asana"
        ((dfs.lookup "gid").getD (JSON.str "Unknown")) nm
        ("https://app.asana.com/0/" ++ pid ++ "/" ++
          pyStr ((dfs.lookup "gid").getD (JSON.str "Unknown"))) ∧
    ∃ pre, "https://app.asana.com/0/" ++ pid ++ "/" ++
        pyStr ((dfs.lookup "gid").getD (JSON.str "Unknown")) =
      pre ++ "/" ++ pyStr ((dfs.lookup "gid").getD (JSON.str "Unknown")) := by
  refine ⟨?_, ⟨"https://app.asana.com/0/" ++ pid, rfl⟩⟩
  rcases h with h | ⟨h, rfl⟩
  · simp [create_asana_task, dictGet, h]
  · simp [create_asana_task, dictGet, h]

/-- Witness for C5_created_success at spec Scenario C: status 201 with body
`{"data":{"gid":"999"}}`. -/
theorem C5_created_success_witness :
    create_asana_task "P" "N" "T"
        (ApiOutcome.response 201 "resp"
          (some (JSON.obj [("data", JSON.obj [("gid", JSON.str "999")])]))) =
      TaskResult.success "Task created successfully in Asana" (JSON.str "999") "N"
        "https://app.asana.com/0/P/999" :=
  (C5_created_success "P" "N" "T" "resp" [("data", JSON.obj [("gid", JSON.str "999")])]
    [("gid", JSON.str "999")] (Or.inl rfl)).1

/-- Claim C6: a non-JSON request body yields HTTP 400 with body
`{"status":"error","message":"Expected JSON data"}`; a valid JSON body always
yields HTTP 200 whose body is the serialised `TaskResult`, whatever that
result is. -/
theorem C6_http_contract (pid : String) (outcome : ApiOutcome) (data : JSON) :
    jira_webhook pid WebhookRequest.notJson outcome =
      (400, JSON.obj [("status", JSON.str "error"),
        ("message", JSON.str "Expected JSON data")]) ∧
    jira_webhook pid (WebhookRequest.json data) outcome =
      (200, taskResultToJson (create_asana_task_from_jira_webhook pid data outcome)) :=
  ⟨rfl, rfl⟩

/-- Claim C7: the composed notes carry a `"Description:"` section exactly
when the normalized description text is non-empty — when it is empty the
notes are exactly the two-line header with trailing blank line, and when it
is non-empty the notes end with `"Description:"`, a newline and the text. -/
theorem C7_description_section (k s d : String) :
    (d = "" → composeNotes k s d =
      "Jira Issue: " ++ k ++ "\nOriginal Summary: " ++ s ++ "\n\n") ∧
    (d ≠ "" → composeNotes k s d =
      ("Jira Issue: " ++ k ++ "\nOriginal Summary: " ++ s ++ "\n\n") ++
        "Description:\n" ++ d) := by
  constructor
  · rintro rfl; rfl
  · intro hd
    have hb : d.isEmpty = false := by
      cases h : d.isEmpty
      · rfl
      · exact absurd ((String.isEmpty_iff d).mp h) hd
    simp [composeNotes, hb, String.append_assoc]

/-- Witness for C7_description_section at a non-empty description text. -/
theorem C7_description_section_witness :
    composeNotes "K" "S" "Body" =
      ("Jira Issue: " ++ "K" ++ "\nOriginal Summary: " ++ "S" ++ "\n\n") ++
        "Description:\n" ++ "Body" :=
  (C7_description_section "K" "S" "Body").2 (by decide)

/-- Claim C8: a plain-string description normalizes to itself (it is never
tree-walked), and an absent description (the `.get` default `""`) normalizes
to the empty string. -/
theorem C8_plain_string (s : String) (ffs : List (String × JSON)) :
    normalize_description (JSON.str s) = s ∧
    (ffs.lookup "description" = none →
      (dictGet (JSON.obj ffs) "description" (JSON.str "")).map normalize_description =
        Except.ok "") := by
  constructor
  · by_cases h : s.isEmpty = true
    · have hs : s = "" := (String.isEmpty_iff s).mp h
      subst hs; rfl
    · have hb : s.isEmpty = false := by simpa using h
      simp [normalize_description, pyTruthy, pyStr, hb]
  · intro h
    simp only [dictGet, h]
    rfl

/-- Witness for C8_plain_string: a dict with no `description` key. -/
theorem C8_plain_string_witness :
    (dictGet (JSON.obj []) "description" (JSON.str "")).map normalize_description =
      Except.ok "" :=
  (C8_plain_string "hello" []).2 rfl

/-- Claim C9: whenever the extraction steps run without raising (the inbound
value, its `issue` value and the `fields` value are dicts or absent), the task
name is exactly `"[{issueKey}] {summary}"`, the key defaulting to `"UNKNOWN"`
and the summary to `"No Title"` when absent. -/
theorem C9_name_format (dfs ifs ffs : List (String × JSON))
    (hIssue : (dfs.lookup "issue").getD (JSON.obj []) = JSON.obj ifs)
    (hFields : (ifs.lookup "fields").getD (JSON.obj []) = JSON.obj ffs) :
    extractTaskFields (JSON.obj dfs) =
      Except.ok ("[" ++ pyStr ((ifs.lookup "key").getD (JSON.str "UNKNOWN")) ++ "] " ++
          pyStr ((ffs.lookup "summary").getD (JSON.str "No Title")),
        composeNotes (pyStr ((ifs.lookup "key").getD (JSON.str "UNKNOWN")))
          (pyStr ((ffs.lookup "summary").getD (JSON.str "No Title")))
          (normalize_description ((ffs.lookup "description").getD (JSON.str "")))) := by
  simp [extractTaskFields, dictGet, hIssue, hFields, bind, Except.bind, Functor.map,
    Except.map, pure, Except.pure]

/-- Witness for C9_name_format: the empty payload `{}` produces the name
`"[UNKNOWN] No Title"` from the two defaults. -/
theorem C9_name_format_witness :
    extractTaskFields (JSON.obj []) =
      Except.ok ("[UNKNOWN] No Title",
        composeNotes "UNKNOWN" "No Title" (normalize_description (JSON.str ""))) :=
  C9_name_format [] [] [] rfl rfl

/-- Claim C10: a valid-JSON body whose top-level value is not an object makes
the first `.get` raise; the exception is caught and the endpoint still
responds 200 with a serialised `error_type "processing"` failure. -/
theorem C10_nonobject_processing (pid : String) (outcome : ApiOutcome) (data : JSON)
    (h : isDict data = false) :
    ∃ msg, jira_webhook pid (WebhookRequest.json data) outcome =
      (200, taskResultToJson (TaskResult.failure msg "processing" none)) := by
  refine ⟨"Error processing webhook data: " ++
    "AttributeError: object has no attribute get", ?_⟩
  cases data with
  | obj fs => simp [isDict] at h
  | null => rfl
  | bool b => rfl
  | num n => rfl
  | str s => rfl
  | arr xs => rfl

/-- Witness for C10_nonobject_processing at the JSON array `[]`. -/
theorem C10_nonobject_processing_witness :
    ∃ msg, jira_webhook "P" (WebhookRequest.json (JSON.arr []))
        (ApiOutcome.response 201 "" none) =
      (200, taskResultToJson (TaskResult.failure msg "processing" none)) :=
  C10_nonobject_processing "P" (ApiOutcome.response 201 "" none) (JSON.arr []) rfl
